import Mathlib

/-
  Shallow embedding of oslo.middleware's healthcheck middleware
  (src/oslo_middleware/healthcheck/__init__.py).

  The middleware intercepts requests on a configured path, invokes the
  configured backend checkers, aggregates their results into a verdict and
  renders it as text/plain, text/html or application/json.  Backend plugins,
  stevedore loading, webob and jinja2 are external collaborators; the two
  jinja2 templates used by the middleware are expanded by hand below with
  jinja2's default whitespace semantics (no trim_blocks / lstrip_blocks,
  keep_trailing_newline = false, and the explicit whitespace-control
  markers appearing in the templates).
-/

namespace OsloHealthcheck

/-- Whitespace characters stripped by Python str.strip() (ASCII part:
space, tab, newline, carriage return, vertical tab, form feed; the
additional Unicode whitespace characters are not modelled). -/
def isPyWS (c : Char) : Bool :=
  c == ' ' || c == '\t' || c == '\n' || c == '\x0d' || c == '\x0b' || c == '\x0c'

/-- Remove trailing whitespace from a list of characters. -/
def rtrimList : List Char → List Char
  | [] => []
  | c :: cs => if (rtrimList cs).isEmpty && isPyWS c then [] else c :: rtrimList cs

/-- Python str.strip(): drop leading and trailing whitespace. -/
def pyStrip (s : String) : String :=
  String.mk (rtrimList (s.data.dropWhile isPyWS))

/-- Concatenation of a list of strings (Jinja2 concatenates the rendered
chunks of a template in order). -/
def strJoin : List String → String
  | [] => ""
  | s :: ss => s ++ strJoin ss

/-- Joining a list of strings with a newline between consecutive elements
(used to state the specification's "newline-joined" wording). -/
def newlineJoin : List String → String
  | [] => ""
  | [s] => s
  | s :: ss => s ++ "\n" ++ newlineJoin ss

/-- Jinja2's `|e` HTML escaping (markupsafe.escape). -/
def htmlEscape (s : String) : String :=
  strJoin (s.data.map fun c =>
    if c == '&' then "&amp;"
    else if c == '<' then "&lt;"
    else if c == '>' then "&gt;"
    else if c == '"' then "&#34;"
    else if c == '\'' then "&#39;"
    else String.singleton c)

/-- Lower-case hexadecimal digit, as produced by Python's json encoder. -/
def hexDigit (n : Nat) : Char :=
  if n < 10 then Char.ofNat (48 + n) else Char.ofNat (87 + n)

/-- A `\uXXXX` escape for one UTF-16 code unit. -/
def uEscape (n : Nat) : String :=
  "\\u" ++ String.mk [hexDigit (n / 4096 % 16), hexDigit (n / 256 % 16),
                      hexDigit (n / 16 % 16), hexDigit (n % 16)]

/-- Escaping of one character inside a JSON string, Python json.dumps with
its default ensure_ascii = True (characters outside the printable ASCII
range become \uXXXX escapes, beyond the BMP a surrogate pair). -/
def jsonEscapeChar (c : Char) : String :=
  if c == '"' then "\\\""
  else if c == '\\' then "\\\\"
  else if c == '\n' then "\\n"
  else if c == '\x0d' then "\\r"
  else if c == '\t' then "\\t"
  else if c == '\x08' then "\\b"
  else if c == '\x0c' then "\\f"
  else if 0x20 ≤ c.toNat && c.toNat ≤ 0x7e then String.singleton c
  else if c.toNat < 0x10000 then uEscape c.toNat
  else uEscape (0xd800 + (c.toNat - 0x10000) / 1024) ++
       uEscape (0xdc00 + (c.toNat - 0x10000) % 1024)

/-- Body of a JSON string literal. -/
def jsonEscape (s : String) : String :=
  strJoin (s.data.map jsonEscapeChar)

/-- The JSON values that the middleware serializes (Python dicts keep
insertion order; json.dumps later sorts the keys). -/
inductive PyJson where
  | str : String → PyJson
  | bool : Bool → PyJson
  | arr : List PyJson → PyJson
  | obj : List (String × PyJson) → PyJson
deriving Repr

/-- Code-point order on strings, as Python compares str keys. -/
def keyLt : List Char → List Char → Bool
  | [], [] => false
  | [], _ :: _ => true
  | _ :: _, [] => false
  | a :: as, b :: bs =>
    if a.toNat < b.toNat then true
    else if b.toNat < a.toNat then false
    else keyLt as bs

/-- Stable insertion into a key-sorted association list. -/
def insertEntry (kv : String × PyJson) : List (String × PyJson) → List (String × PyJson)
  | [] => [kv]
  | kv' :: rest =>
    if keyLt kv.1.data kv'.1.data then kv :: kv' :: rest
    else kv' :: insertEntry kv rest

/-- Stable sort of object entries by key (json.dumps sort_keys = True). -/
def sortEntries : List (String × PyJson) → List (String × PyJson)
  | [] => []
  | kv :: rest => insertEntry kv (sortEntries rest)

mutual
/-- Recursively sort every object's entries by key. -/
def sortJson : PyJson → PyJson
  | PyJson.str s => PyJson.str s
  | PyJson.bool b => PyJson.bool b
  | PyJson.arr xs => PyJson.arr (sortJsonList xs)
  | PyJson.obj kvs => PyJson.obj (sortEntries (sortJsonEntries kvs))

def sortJsonList : List PyJson → List PyJson
  | [] => []
  | x :: xs => sortJson x :: sortJsonList xs

def sortJsonEntries : List (String × PyJson) → List (String × PyJson)
  | [] => []
  | (k, v) :: kvs => (k, sortJson v) :: sortJsonEntries kvs
end

/-- Indentation produced by json.dumps(indent = 4) at nesting depth d. -/
def indentStr (d : Nat) : String :=
  String.mk (List.replicate (4 * d) ' ')

mutual
/-- Serialization of a (key-sorted) JSON value at nesting depth d with
Python's json.dumps(indent = 4) layout. -/
def dumpJson (d : Nat) : PyJson → String
  | PyJson.str s => "\"" ++ jsonEscape s ++ "\""
  | PyJson.bool b => if b then "true" else "false"
  | PyJson.arr xs => dumpJsonArr d xs
  | PyJson.obj kvs => dumpJsonObj d kvs

def dumpJsonArr (d : Nat) : List PyJson → String
  | [] => "[]"
  | x :: xs =>
    "[\n" ++ indentStr (d + 1) ++ dumpJson (d + 1) x ++ dumpJsonArrRest d xs ++
    "\n" ++ indentStr d ++ "]"

def dumpJsonArrRest (d : Nat) : List PyJson → String
  | [] => ""
  | x :: xs => ",\n" ++ indentStr (d + 1) ++ dumpJson (d + 1) x ++ dumpJsonArrRest d xs

def dumpJsonObj (d : Nat) : List (String × PyJson) → String
  | [] => "\x7b\x7d"
  | (k, v) :: kvs =>
    "\x7b\n" ++ indentStr (d + 1) ++ "\"" ++ jsonEscape k ++ "\": " ++
    dumpJson (d + 1) v ++ dumpJsonObjRest d kvs ++ "\n" ++ indentStr d ++ "\x7d"

def dumpJsonObjRest (d : Nat) : List (String × PyJson) → String
  | [] => ""
  | (k, v) :: kvs =>
    ",\n" ++ indentStr (d + 1) ++ "\"" ++ jsonEscape k ++ "\": " ++
    dumpJson (d + 1) v ++ dumpJsonObjRest d kvs
end

/-- Healthcheck._pretty_json_dumps: json.dumps(contents, indent=4, sort_keys=True). -/
def prettyJsonDumps (j : PyJson) : String :=
  dumpJson 0 (sortJson j)

/-- Lookup of a key in a JSON object (none on a non-object). -/
def lookupEntries (k : String) : List (String × PyJson) → Option PyJson
  | [] => none
  | (k', v) :: kvs => if k' == k then some v else lookupEntries k kvs

def jsonLookup (k : String) : PyJson → Option PyJson
  | PyJson.obj kvs => lookupEntries k kvs
  | _ => none

/-- A result produced by one backend checker's healthcheck() call.
`available` and `reason` are the fields read by the middleware.
`className` is modelled from the spec: the short (unqualified) type name
that oslo.utils reflection reports for the result object produced by the
backend implementation — backend plugins and oslo.utils live outside the
sources of this middleware, so the name is carried as data here. -/
structure CheckResult where
  available : Bool
  reason : String
  className : String
deriving Repr, DecidableEq

/-- The middleware's per-instance configuration: conf.get('path',
'/healthcheck') and strutils.bool_from_string(conf.get('detailed')). -/
structure Config where
  path : String
  showDetails : Bool
deriving Repr, DecidableEq

/-- The three media types the middleware offers, in the fixed priority
order of Healthcheck._accept_to_functor. -/
inductive AcceptType where
  | textPlain
  | textHtml
  | applicationJson
deriving Repr, DecidableEq

/-- The slice of a webob request that process_request consumes.
`acceptBestMatch` is the outcome of req.accept.best_match over the three
supported media types (webob performs the matching; none models webob
returning None when the Accept header matches no candidate). -/
structure Request where
  method : String
  path : String
  acceptBestMatch : Option AcceptType
deriving Repr, DecidableEq

/-- The webob response built at the end of process_request: status code,
body and the content type passed to webob.response.Response. -/
structure Response where
  status : Nat
  body : String
  contentType : String
deriving Repr, DecidableEq

/-- Healthcheck._are_results_healthy: scan the results and return False at
the first unavailable one, True when none is unavailable. -/
def areResultsHealthy : List CheckResult → Bool
  | [] => true
  | r :: rs => if r.available then areResultsHealthy rs else false

/-- Healthcheck.HEALTHY_TO_STATUS_CODES: webob.exc.HTTPOk.code (200) for
True, webob.exc.HTTPServiceUnavailable.code (503) for False. -/
def healthyToStatus (healthy : Bool) : Nat :=
  if healthy then 200 else 503

/-- Healthcheck.HEAD_HEALTHY_TO_STATUS_CODES: webob.exc.HTTPNoContent.code
(204) for True, webob.exc.HTTPServiceUnavailable.code (503) for False. -/
def headHealthyToStatus (healthy : Bool) : Nat :=
  if healthy then 204 else 503

/-- PLAIN_RESPONSE_TEMPLATE rendered by jinja2 with the given reasons:
a leading newline (text before the for tag), then per iteration a newline
(text between the for tag and the if tag) followed by the reason when it
is truthy (non-empty); the endif tag's whitespace-control swallows the
newline before the endfor tag and the template's trailing newline is
dropped by jinja2's keep_trailing_newline default. -/
def expandPlainTemplate (reasons : List String) : String :=
  "\n" ++ strJoin (reasons.map fun r => "\n" ++ (if r == "" then "" else r))

/-- Healthcheck._make_text_response.  The template only uses the reasons
(its detailed parameter is passed but never referenced), and the rendered
body is Python-stripped.  The healthy flag is accepted and unused, as in
the source. -/
def makeTextResponse (results : List CheckResult) (healthy : Bool) : String × String :=
  (pyStrip (expandPlainTemplate (results.map fun r => r.reason)), "text/plain")

/-- The dict built by Healthcheck._make_json_response, in Python insertion
order: with details the keys are detailed then reasons, each reason being
a dict with keys reason then class; without details the keys are reasons
then detailed. -/
def makeJsonBody (showDetails : Bool) (results : List CheckResult) : PyJson :=
  if showDetails then
    PyJson.obj [("detailed", PyJson.bool true),
                ("reasons", PyJson.arr (results.map fun r =>
                  PyJson.obj [("reason", PyJson.str r.reason),
                              ("class", PyJson.str r.className)]))]
  else
    PyJson.obj [("reasons", PyJson.arr (results.map fun r => PyJson.str r.reason)),
                ("detailed", PyJson.bool false)]

/-- Healthcheck._make_json_response. -/
def makeJsonResponse (showDetails : Bool) (results : List CheckResult)
    (healthy : Bool) : String × String :=
  (prettyJsonDumps (makeJsonBody showDetails results), "application/json")

/-- Healthcheck._make_head_response. -/
def makeHeadResponse (results : List CheckResult) (healthy : Bool) : String × String :=
  ("", "text/plain")

/-- Jinja2 truthiness of the hostname template parameter: None and the
empty string are falsy. -/
def hostnameTruthy : Option String → Bool
  | none => false
  | some h => !(h == "")

/-- The body of the HTML template's for-loop for one result whose reason
is truthy: a TR element holding the escaped class cell (only in detailed
mode) and the escaped reason cell, with the whitespace left by the
template's whitespace-control markers. -/
def htmlRowTemplate (detailed : Bool) (r : CheckResult) : String :=
  "<TR>\n" ++
  (if detailed then "<TD>" ++ htmlEscape r.className ++ "</TD>" else "") ++
  "\n    <TD>" ++ htmlEscape r.reason ++ "</TD>\n</TR>"

/-- HTML_RESPONSE_TEMPLATE rendered by jinja2 for the given parameters;
the template's whitespace-control markers are applied (the H1 block keeps
no surrounding whitespace, each table row keeps the layout shown, the
trailing newline of the template is dropped). -/
def expandHtmlTemplate (detailed : Bool) (hostname : Option String)
    (results : List CheckResult) : String :=
  "\n<HTML>\n<HEAD><TITLE>Healthcheck Status</TITLE></HEAD>\n<BODY>\n" ++
  (if detailed then
    (if hostnameTruthy hostname then
      "<H1>Server status for " ++ htmlEscape (hostname.getD "") ++ "</H1>"
     else "")
   else "") ++
  "\n<H2>Result of " ++ toString results.length ++ " checks:</H2>\n" ++
  "<TABLE bgcolor=\"#ffffff\" border=\"1\">\n<TBODY>\n" ++
  strJoin (results.map fun r =>
    if r.reason == "" then "" else htmlRowTemplate detailed r) ++
  "\n</TBODY>\n</TABLE>\n</BODY>\n</HTML>"

/-- Healthcheck._make_html_response: the hostname comes from
socket.gethostname(), replaced by None when resolution raises; the
rendered body is Python-stripped.  The healthy flag is passed to the
template but the template never references it. -/
def makeHtmlResponse (showDetails : Bool) (hostname : Option String)
    (results : List CheckResult) (healthy : Bool) : String × String :=
  (pyStrip (expandHtmlTemplate showDetails hostname results), "text/html")

/-- Healthcheck._accept_to_functor: the ordered mapping from negotiated
media type to renderer. -/
def acceptToFunctor (showDetails : Bool) (hostname : Option String) :
    AcceptType → List CheckResult → Bool → String × String
  | AcceptType.textPlain => makeTextResponse
  | AcceptType.textHtml => makeHtmlResponse showDetails hostname
  | AcceptType.applicationJson => makeJsonResponse showDetails

/-- The list comprehension [ext.obj.healthcheck() for ext in self._backends]:
each backend is invoked in order; a backend that raises aborts the whole
collection with that exception (nothing is caught), later backends are not
invoked, and the results gathered so far are discarded. -/
def collectResults : List (Except String CheckResult) → Except String (List CheckResult)
  | [] => Except.ok []
  | b :: bs =>
    match b with
    | Except.error e => Except.error e
    | Except.ok r =>
      match collectResults bs with
      | Except.error e => Except.error e
      | Except.ok rs => Except.ok (r :: rs)

/-- Healthcheck.process_request.  A non-matching path returns no response
(none) before any backend is invoked; otherwise the backends are invoked,
the verdict computed, and the response rendered: HEAD requests use the
head renderer and the HEAD status table, other methods use the negotiated
renderer (falling back to text/plain when webob's best_match returned
None) and the ordinary status table.  A backend exception propagates as
Except.error. -/
def processRequest (conf : Config) (hostname : Option String)
    (backends : List (Except String CheckResult)) (req : Request) :
    Except String (Option Response) :=
  if req.path ≠ conf.path then Except.ok none
  else
    match collectResults backends with
    | Except.error e => Except.error e
    | Except.ok results =>
      let healthy := areResultsHealthy results
      if req.method = "HEAD" then
        let bc := makeHeadResponse results healthy
        Except.ok (some ⟨headHealthyToStatus healthy, bc.1, bc.2⟩)
      else
        let acceptType :=
          match req.acceptBestMatch with
          | some a => a
          | none => AcceptType.textPlain
        let bc := acceptToFunctor conf.showDetails hostname acceptType results healthy
        Except.ok (some ⟨healthyToStatus healthy, bc.1, bc.2⟩)

/-
  Supporting lemmas.
-/

theorem areResultsHealthy_iff (rs : List CheckResult) :
    areResultsHealthy rs = true ↔ ∀ r ∈ rs, r.available = true := by
  induction rs with
  | nil => simp [areResultsHealthy]
  | cons r rs ih =>
    cases h : r.available with
    | true => simp [areResultsHealthy, h, ih]
    | false => simp [areResultsHealthy, h]

theorem pyStrip_newline (s : String) : pyStrip ("\n" ++ s) = pyStrip s := by
  have h : ("\n" ++ s).data = '\n' :: s.data := by
    simp [String.data_append]
  simp [pyStrip, h, List.dropWhile_cons, show isPyWS '\n' = true from rfl]

theorem strJoin_map_newline (r : String) (rs : List String) :
    strJoin ((r :: rs).map fun x => "\n" ++ x) = "\n" ++ newlineJoin (r :: rs) := by
  induction rs generalizing r with
  | nil => simp [strJoin, newlineJoin, String.append_empty]
  | cons r2 rs ih =>
    calc strJoin ((r :: r2 :: rs).map fun x => "\n" ++ x)
        = ("\n" ++ r) ++ strJoin ((r2 :: rs).map fun x => "\n" ++ x) := rfl
      _ = ("\n" ++ r) ++ ("\n" ++ newlineJoin (r2 :: rs)) := by rw [ih]
      _ = "\n" ++ (r ++ ("\n" ++ newlineJoin (r2 :: rs))) := by
            rw [String.append_assoc]
      _ = "\n" ++ newlineJoin (r :: r2 :: rs) := by
            rw [show newlineJoin (r :: r2 :: rs) = r ++ "\n" ++ newlineJoin (r2 :: rs) from rfl,
                String.append_assoc]

theorem makeTextResponse_body (results : List CheckResult) (healthy : Bool) :
    (makeTextResponse results healthy).1
      = pyStrip (newlineJoin (results.map fun r => r.reason)) := by
  have hid : ∀ r : String, (if r == "" then "" else r) = r := by
    intro r
    cases h : r == "" with
    | true => simp at h; simp [h]
    | false => simp
  show pyStrip (expandPlainTemplate (results.map fun r => r.reason)) = _
  generalize results.map (fun r => r.reason) = reasons
  unfold expandPlainTemplate
  simp only [hid]
  cases reasons with
  | nil => decide
  | cons r rs =>
    rw [strJoin_map_newline, pyStrip_newline, pyStrip_newline]

theorem makeTextResponse_eq (results : List CheckResult) (healthy : Bool) :
    makeTextResponse results healthy
      = (pyStrip (newlineJoin (results.map fun r => r.reason)), "text/plain") := by
  have h := makeTextResponse_body results healthy
  rw [show makeTextResponse results healthy
      = ((makeTextResponse results healthy).1, (makeTextResponse results healthy).2) from rfl, h]
  rfl

theorem rtrimList_append (l m : List Char) (hm : rtrimList m ≠ []) :
    rtrimList (l ++ m) = l ++ rtrimList m := by
  induction l with
  | nil => simp
  | cons c l ih =>
    have hne : (l ++ rtrimList m).isEmpty = false := by
      simp [List.isEmpty_iff, hm]
    rw [List.cons_append, rtrimList, ih, hne]
    simp

theorem head_append (a b : String) (c : Char) (h : ∃ l, a.data = c :: l) :
    ∃ l, (a ++ b).data = c :: l := by
  obtain ⟨l, hl⟩ := h
  exact ⟨l ++ b.data, by rw [String.data_append, hl]; rfl⟩

theorem pyStrip_eq_self_of (s : String) (c : Char) (hc : isPyWS c = false)
    (hs : ∃ l, s.data = c :: l) (ht : rtrimList s.data = s.data) :
    pyStrip s = s := by
  obtain ⟨l, hl⟩ := hs
  apply String.ext
  show rtrimList (s.data.dropWhile isPyWS) = s.data
  rw [hl, List.dropWhile_cons, hc]
  simp only [Bool.false_eq_true, if_false]
  rw [← hl, ht]

theorem pyStrip_empty_join (rs : List String) (h : ∀ r ∈ rs, r = "") :
    pyStrip (newlineJoin rs) = "" := by
  induction rs with
  | nil => decide
  | cons s ss ih =>
    cases ss with
    | nil =>
      have hs : s = "" := h s (by simp)
      rw [show newlineJoin [s] = s from rfl, hs]
      decide
    | cons s2 ss2 =>
      have hs : s = "" := h s (by simp)
      rw [show newlineJoin (s :: s2 :: ss2) = s ++ "\n" ++ newlineJoin (s2 :: ss2) from rfl,
          hs, String.empty_append, pyStrip_newline]
      exact ih (fun r hr => h r (List.mem_cons_of_mem s hr))

theorem strJoin_filter_rows (p : CheckResult → Bool) (f : CheckResult → String)
    (rs : List CheckResult) :
    strJoin (rs.map fun r => if p r then "" else f r)
      = strJoin ((rs.filter fun r => !(p r)).map f) := by
  induction rs with
  | nil => rfl
  | cons r rs ih =>
    cases h : p r with
    | true => simp [strJoin, List.filter_cons, h, ih, String.empty_append]
    | false => simp [strJoin, List.filter_cons, h, ih]

theorem strJoin_html_rows (detailed : Bool) (rs : List CheckResult) :
    strJoin (rs.map fun r => if r.reason == "" then "" else htmlRowTemplate detailed r)
      = strJoin ((rs.filter fun r => !(r.reason == "")).map (htmlRowTemplate detailed)) :=
  strJoin_filter_rows (fun r => r.reason == "") (htmlRowTemplate detailed) rs

theorem processRequest_matched (conf : Config) (hostname : Option String)
    (backends : List (Except String CheckResult)) (req : Request)
    (results : List CheckResult)
    (hp : req.path = conf.path) (hok : collectResults backends = Except.ok results) :
    processRequest conf hostname backends req =
      (if req.method = "HEAD" then
        Except.ok (some ⟨headHealthyToStatus (areResultsHealthy results), "", "text/plain"⟩)
       else
        let a := match req.acceptBestMatch with
          | some a => a
          | none => AcceptType.textPlain
        let bc := acceptToFunctor conf.showDetails hostname a results (areResultsHealthy results)
        Except.ok (some ⟨healthyToStatus (areResultsHealthy results), bc.1, bc.2⟩)) := by
  simp [processRequest, hp, hok, makeHeadResponse]


/-
  The claims.
-/

/-- Claim C1: the aggregated verdict is the logical AND of available over
the collected results: healthy iff every result is available, vacuously
healthy on the empty result list, and independent of the order of the
results. -/
theorem healthcheck_verdict_is_and (results results' : List CheckResult) :
    (areResultsHealthy results = true ↔ ∀ r ∈ results, r.available = true)
    ∧ areResultsHealthy ([] : List CheckResult) = true
    ∧ (List.Perm results results' →
        areResultsHealthy results = areResultsHealthy results') := by
  refine ⟨areResultsHealthy_iff results, rfl, fun hperm => ?_⟩
  cases h1 : areResultsHealthy results with
  | true =>
    have hall := (areResultsHealthy_iff results).1 h1
    exact ((areResultsHealthy_iff results').2
      (fun r hr => hall r (hperm.mem_iff.2 hr))).symm
  | false =>
    cases h2 : areResultsHealthy results' with
    | true =>
      have hall := (areResultsHealthy_iff results').1 h2
      have hx := (areResultsHealthy_iff results).2
        (fun r hr => hall r (hperm.mem_iff.1 hr))
      rw [h1] at hx
      exact absurd hx (by simp)
    | false => rfl

theorem healthcheck_verdict_is_and_witness :
    areResultsHealthy [⟨true, "", "A"⟩, ⟨false, "x", "B"⟩]
      = areResultsHealthy [⟨false, "x", "B"⟩, ⟨true, "", "A"⟩] :=
  (healthcheck_verdict_is_and [⟨true, "", "A"⟩, ⟨false, "x", "B"⟩]
    [⟨false, "x", "B"⟩, ⟨true, "", "A"⟩]).2.2 (by decide)

/-- Claim C3: a request whose path differs from the configured path gets
no response from the middleware, whatever the backends would do (the
backends are not invoked: the result does not depend on them, including
raising backends). -/
theorem other_path_no_response (conf : Config) (hostname : Option String)
    (backends : List (Except String CheckResult)) (req : Request)
    (h : req.path ≠ conf.path) :
    processRequest conf hostname backends req = Except.ok none := by
  rw [processRequest, if_pos h]

theorem other_path_no_response_witness :
    processRequest ⟨"/healthcheck", false⟩ none [Except.error "boom"]
        ⟨"GET", "/other", none⟩
      = Except.ok none :=
  other_path_no_response ⟨"/healthcheck", false⟩ none [Except.error "boom"]
    ⟨"GET", "/other", none⟩ (by decide)

/-- Claim C9: a backend raising during collection aborts process_request
with that exception: nothing is caught, no response is produced. -/
theorem backend_error_propagates (conf : Config) (hostname : Option String)
    (backends : List (Except String CheckResult)) (req : Request) (e : String)
    (hp : req.path = conf.path) (herr : collectResults backends = Except.error e) :
    processRequest conf hostname backends req = Except.error e := by
  rw [processRequest]
  simp [hp, herr]

theorem backend_error_propagates_witness :
    processRequest ⟨"/healthcheck", false⟩ none
        [Except.ok ⟨true, "", "X"⟩, Except.error "boom"]
        ⟨"GET", "/healthcheck", none⟩
      = Except.error "boom" :=
  backend_error_propagates ⟨"/healthcheck", false⟩ none
    [Except.ok ⟨true, "", "X"⟩, Except.error "boom"]
    ⟨"GET", "/healthcheck", none⟩ "boom" rfl rfl

/-- Claim C7: every HEAD request on the configured path gets an empty body
with content type text/plain and only the 204/503 status carries the
verdict, whatever the Accept header and the show_details configuration. -/
theorem head_response_empty_body (conf : Config) (hostname : Option String)
    (backends : List (Except String CheckResult)) (req : Request)
    (results : List CheckResult)
    (hm : req.method = "HEAD") (hp : req.path = conf.path)
    (hok : collectResults backends = Except.ok results) :
    processRequest conf hostname backends req
      = Except.ok (some ⟨headHealthyToStatus (areResultsHealthy results),
          "", "text/plain"⟩) := by
  rw [processRequest_matched conf hostname backends req results hp hok, if_pos hm]

theorem head_response_empty_body_witness :
    processRequest ⟨"/healthcheck", true⟩ none []
        ⟨"HEAD", "/healthcheck", some AcceptType.applicationJson⟩
      = Except.ok (some ⟨204, "", "text/plain"⟩) :=
  head_response_empty_body ⟨"/healthcheck", true⟩ none []
    ⟨"HEAD", "/healthcheck", some AcceptType.applicationJson⟩ [] rfl rfl rfl

/-- Claim C2: every response emitted on the configured path has status
200, 204 or 503, and exactly per the table: HEAD gets 204/503 and any
other method 200/503 according to the verdict. -/
theorem response_status_codes (conf : Config) (hostname : Option String)
    (backends : List (Except String CheckResult)) (req : Request) (resp : Response)
    (h : processRequest conf hostname backends req = Except.ok (some resp)) :
    (resp.status = 200 ∨ resp.status = 204 ∨ resp.status = 503)
    ∧ ∀ results, collectResults backends = Except.ok results →
        resp.status = (if req.method = "HEAD"
          then (if areResultsHealthy results then 204 else 503)
          else (if areResultsHealthy results then 200 else 503)) := by
  by_cases hp : req.path = conf.path
  · cases hcol : collectResults backends with
    | error e =>
      rw [processRequest] at h
      simp [hp, hcol] at h
    | ok results =>
      rw [processRequest_matched conf hostname backends req results hp hcol] at h
      by_cases hm : req.method = "HEAD"
      · rw [if_pos hm] at h
        simp only [Except.ok.injEq, Option.some.injEq] at h
        subst h
        cases hh : areResultsHealthy results <;>
          simp [headHealthyToStatus, hm, hcol, hh]
      · rw [if_neg hm] at h
        simp only [Except.ok.injEq, Option.some.injEq] at h
        subst h
        cases hh : areResultsHealthy results <;>
          simp [healthyToStatus, hm, hcol, hh]
  · rw [processRequest] at h
    simp [hp] at h

theorem response_status_codes_witness :
    ((200 : Nat) = 200 ∨ (200 : Nat) = 204 ∨ (200 : Nat) = 503)
    ∧ ∀ results, collectResults [] = Except.ok results →
        (200 : Nat) = (if ("GET" : String) = "HEAD"
          then (if areResultsHealthy results then 204 else 503)
          else (if areResultsHealthy results then 200 else 503)) :=
  response_status_codes ⟨"/healthcheck", false⟩ none []
    ⟨"GET", "/healthcheck", none⟩ ⟨200, "", "text/plain"⟩ rfl

/-- Claim C4: a non-HEAD request on the configured path whose Accept
header matched none of the supported media types (webob best_match
returned None) is rendered exactly as an explicit text/plain request, and
with a text/plain response rather than any negotiation error. -/
theorem accept_no_match_falls_back (conf : Config) (hostname : Option String)
    (backends : List (Except String CheckResult)) (req : Request)
    (hp : req.path = conf.path) (hm : req.method ≠ "HEAD")
    (hacc : req.acceptBestMatch = none) :
    processRequest conf hostname backends req
      = processRequest conf hostname backends
          ⟨req.method, req.path, some AcceptType.textPlain⟩
    ∧ ∀ results, collectResults backends = Except.ok results →
        processRequest conf hostname backends req
          = Except.ok (some ⟨healthyToStatus (areResultsHealthy results),
              (makeTextResponse results (areResultsHealthy results)).1, "text/plain"⟩) := by
  cases hcol : collectResults backends with
  | error e =>
    constructor
    · rw [processRequest, processRequest]
      simp [hp, hcol]
    · intro results hok
      exact absurd hok (by simp)
  | ok results =>
    constructor
    · rw [processRequest_matched conf hostname backends req results hp hcol,
          processRequest_matched conf hostname backends
            ⟨req.method, req.path, some AcceptType.textPlain⟩ results hp hcol]
      simp [hacc]
    · intro results' hok
      simp only [Except.ok.injEq] at hok
      subst hok
      rw [processRequest_matched conf hostname backends req results hp hcol, if_neg hm]
      simp [hacc, acceptToFunctor, makeTextResponse]

theorem accept_no_match_falls_back_witness :
    (processRequest ⟨"/healthcheck", false⟩ none [Except.ok ⟨false, "b", "Z"⟩]
        ⟨"GET", "/healthcheck", none⟩
      = processRequest ⟨"/healthcheck", false⟩ none [Except.ok ⟨false, "b", "Z"⟩]
          ⟨"GET", "/healthcheck", some AcceptType.textPlain⟩)
    ∧ ∀ results, collectResults [Except.ok ⟨false, "b", "Z"⟩] = Except.ok results →
        processRequest ⟨"/healthcheck", false⟩ none [Except.ok ⟨false, "b", "Z"⟩]
            ⟨"GET", "/healthcheck", none⟩
          = Except.ok (some ⟨healthyToStatus (areResultsHealthy results),
              (makeTextResponse results (areResultsHealthy results)).1, "text/plain"⟩) :=
  accept_no_match_falls_back ⟨"/healthcheck", false⟩ none [Except.ok ⟨false, "b", "Z"⟩]
    ⟨"GET", "/healthcheck", none⟩ rfl (by decide) rfl

/-- Claim C5: a non-HEAD request rendered as application/json gets the
serialization of a document whose key detailed holds the configured
show_details boolean and whose key reasons holds, per backend result in
invocation order, either the plain reason string (show_details false) or
an object with the reason and the result's short class name
(show_details true). -/
theorem json_response_structure (conf : Config) (hostname : Option String)
    (backends : List (Except String CheckResult)) (req : Request)
    (results : List CheckResult)
    (hp : req.path = conf.path) (hm : req.method ≠ "HEAD")
    (hacc : req.acceptBestMatch = some AcceptType.applicationJson)
    (hok : collectResults backends = Except.ok results) :
    processRequest conf hostname backends req
      = Except.ok (some ⟨healthyToStatus (areResultsHealthy results),
          prettyJsonDumps (makeJsonBody conf.showDetails results), "application/json"⟩)
    ∧ jsonLookup "detailed" (makeJsonBody conf.showDetails results)
        = some (PyJson.bool conf.showDetails)
    ∧ jsonLookup "reasons" (makeJsonBody conf.showDetails results)
        = some (if conf.showDetails then
            PyJson.arr (results.map fun r =>
              PyJson.obj [("reason", PyJson.str r.reason),
                          ("class", PyJson.str r.className)])
          else PyJson.arr (results.map fun r => PyJson.str r.reason)) := by
  refine ⟨?_, ?_, ?_⟩
  · rw [processRequest_matched conf hostname backends req results hp hok, if_neg hm]
    simp [hacc, acceptToFunctor, makeJsonResponse]
  · cases hd : conf.showDetails <;>
      simp [makeJsonBody, jsonLookup, lookupEntries, hd]
  · cases hd : conf.showDetails <;>
      simp [makeJsonBody, jsonLookup, lookupEntries, hd]

theorem json_response_structure_witness :
    processRequest ⟨"/healthcheck", true⟩ none [Except.ok ⟨false, "b", "Z"⟩]
        ⟨"GET", "/healthcheck", some AcceptType.applicationJson⟩
      = Except.ok (some ⟨healthyToStatus (areResultsHealthy [⟨false, "b", "Z"⟩]),
          prettyJsonDumps (makeJsonBody true [⟨false, "b", "Z"⟩]), "application/json"⟩)
    ∧ jsonLookup "detailed" (makeJsonBody true [⟨false, "b", "Z"⟩])
        = some (PyJson.bool true)
    ∧ jsonLookup "reasons" (makeJsonBody true [⟨false, "b", "Z"⟩])
        = some (if true then
            PyJson.arr (([⟨false, "b", "Z"⟩] : List CheckResult).map fun r =>
              PyJson.obj [("reason", PyJson.str r.reason),
                          ("class", PyJson.str r.className)])
          else PyJson.arr (([⟨false, "b", "Z"⟩] : List CheckResult).map
            fun r => PyJson.str r.reason)) :=
  json_response_structure ⟨"/healthcheck", true⟩ none [Except.ok ⟨false, "b", "Z"⟩]
    ⟨"GET", "/healthcheck", some AcceptType.applicationJson⟩ [⟨false, "b", "Z"⟩]
    rfl (by decide) rfl rfl

/-- Claim C6 as written is false: an empty reason in the middle of the
results contributes an empty line to the text/plain body, so the body
differs from the newline-join of only the non-empty reasons.  For results
with reasons "a", "", "b" the rendered body is "a\n\nb" while the claim
predicts "a\nb". -/
theorem text_plain_counterexample :
    processRequest ⟨"/healthcheck", false⟩ none
        [Except.ok ⟨true, "a", "X"⟩, Except.ok ⟨true, "", "Y"⟩,
         Except.ok ⟨false, "b", "Z"⟩]
        ⟨"GET", "/healthcheck", none⟩
      = Except.ok (some ⟨503, "a\n\nb", "text/plain"⟩)
    ∧ ("a\n\nb" : String)
        ≠ pyStrip (newlineJoin ((["a", "", "b"] : List String).filter
            fun r => !(r == ""))) := by
  constructor
  · rfl
  · decide

/-- Claim C6 amended: a non-HEAD request on the configured path rendered
as text/plain (negotiated or by fallback) gets as body the newline-join of
all reason strings in invocation order (an empty reason contributing an
empty line), whitespace-trimmed at both ends. -/
theorem text_plain_body_joins_all_reasons (conf : Config) (hostname : Option String)
    (backends : List (Except String CheckResult)) (req : Request)
    (results : List CheckResult)
    (hp : req.path = conf.path) (hm : req.method ≠ "HEAD")
    (hacc : req.acceptBestMatch = none
      ∨ req.acceptBestMatch = some AcceptType.textPlain)
    (hok : collectResults backends = Except.ok results) :
    processRequest conf hostname backends req
      = Except.ok (some ⟨healthyToStatus (areResultsHealthy results),
          pyStrip (newlineJoin (results.map fun r => r.reason)), "text/plain"⟩) := by
  rw [processRequest_matched conf hostname backends req results hp hok, if_neg hm]
  rcases hacc with hacc | hacc <;>
    simp [hacc, acceptToFunctor, makeTextResponse_eq]

theorem text_plain_body_joins_all_reasons_witness :
    processRequest ⟨"/healthcheck", false⟩ none
        [Except.ok ⟨true, "", "X"⟩, Except.ok ⟨false, "disk full", "Y"⟩]
        ⟨"GET", "/healthcheck", none⟩
      = Except.ok (some ⟨503, "disk full", "text/plain"⟩) :=
  text_plain_body_joins_all_reasons ⟨"/healthcheck", false⟩ none
    [Except.ok ⟨true, "", "X"⟩, Except.ok ⟨false, "disk full", "Y"⟩]
    ⟨"GET", "/healthcheck", none⟩ [⟨true, "", "X"⟩, ⟨false, "disk full", "Y"⟩]
    rfl (by decide) (Or.inl rfl) rfl

/-- Claim C10: when every collected reason is empty (in particular with
zero backends), the text/plain body is the empty string, not a
placeholder such as OK. -/
theorem all_reasons_empty_gives_empty_body (conf : Config) (hostname : Option String)
    (backends : List (Except String CheckResult)) (req : Request)
    (results : List CheckResult)
    (hp : req.path = conf.path) (hm : req.method ≠ "HEAD")
    (hacc : req.acceptBestMatch = none
      ∨ req.acceptBestMatch = some AcceptType.textPlain)
    (hok : collectResults backends = Except.ok results)
    (hempty : ∀ r ∈ results, r.reason = "") :
    processRequest conf hostname backends req
      = Except.ok (some ⟨healthyToStatus (areResultsHealthy results),
          "", "text/plain"⟩) := by
  rw [processRequest_matched conf hostname backends req results hp hok, if_neg hm]
  have hbody : pyStrip (newlineJoin (results.map fun r => r.reason)) = "" :=
    pyStrip_empty_join _ (by
      intro s hs
      obtain ⟨r, hr, hrs⟩ := List.mem_map.1 hs
      rw [← hrs]
      exact hempty r hr)
  rcases hacc with hacc | hacc <;>
    simp [hacc, acceptToFunctor, makeTextResponse_eq, hbody]

theorem all_reasons_empty_gives_empty_body_witness :
    processRequest ⟨"/healthcheck", false⟩ none [] ⟨"GET", "/healthcheck", none⟩
      = Except.ok (some ⟨200, "", "text/plain"⟩) :=
  all_reasons_empty_gives_empty_body ⟨"/healthcheck", false⟩ none []
    ⟨"GET", "/healthcheck", none⟩ [] rfl (by decide) (Or.inl rfl) rfl
    (by intro r hr; simp at hr)

/-- Claim C8: the text/html body is the full HTML document with exactly
one table row per result whose reason is non-empty (in order, rendered by
htmlRowTemplate: the escaped class cell only in detailed mode, then the
escaped reason cell), a summary heading counting all collected results,
and the hostname heading exactly when show_details is true and a truthy
hostname was resolved (silently omitted otherwise). -/
theorem html_response_structure (detailed healthy : Bool) (hostname : Option String)
    (results : List CheckResult) :
    makeHtmlResponse detailed hostname results healthy
      = ("<HTML>\n<HEAD><TITLE>Healthcheck Status</TITLE></HEAD>\n<BODY>\n" ++
         (if detailed && hostnameTruthy hostname then
           "<H1>Server status for " ++ htmlEscape (hostname.getD "") ++ "</H1>"
          else "") ++
         "\n<H2>Result of " ++ toString results.length ++ " checks:</H2>\n" ++
         "<TABLE bgcolor=\"#ffffff\" border=\"1\">\n<TBODY>\n" ++
         strJoin ((results.filter fun r => !(r.reason == "")).map
           (htmlRowTemplate detailed)) ++
         "\n</TBODY>\n</TABLE>\n</BODY>\n</HTML>", "text/html") := by
  have hhost : (if detailed then
        (if hostnameTruthy hostname then
          "<H1>Server status for " ++ htmlEscape (hostname.getD "") ++ "</H1>"
         else "")
       else "")
      = (if detailed && hostnameTruthy hostname then
          "<H1>Server status for " ++ htmlEscape (hostname.getD "") ++ "</H1>"
         else "") := by
    cases detailed <;> simp
  refine congrArg (fun b => (b, "text/html")) ?_
  show pyStrip (expandHtmlTemplate detailed hostname results) = _
  unfold expandHtmlTemplate
  rw [hhost, strJoin_html_rows,
      show ("\n<HTML>\n<HEAD><TITLE>Healthcheck Status</TITLE></HEAD>\n<BODY>\n" : String)
        = "\n" ++ "<HTML>\n<HEAD><TITLE>Healthcheck Status</TITLE></HEAD>\n<BODY>\n" from rfl]
  simp only [String.append_assoc]
  rw [pyStrip_newline]
  exact pyStrip_eq_self_of _ '<' (by decide)
    (head_append _ _ '<' ⟨_, rfl⟩)
    (by
      simp only [String.data_append, ← List.append_assoc]
      rw [rtrimList_append _ _ (by decide),
          show rtrimList ("\n</TBODY>\n</TABLE>\n</BODY>\n</HTML>" : String).data
            = ("\n</TBODY>\n</TABLE>\n</BODY>\n</HTML>" : String).data from by decide])

end OsloHealthcheck
